import Mathlib

/-!
Shallow embedding of `src/jules-scratch/verification/verify_all_fixes.py`,
a straight-line Playwright verification script.  The script body is modelled
as a list of atomic acts; exception behaviour of the Python `try/except/finally`
around the step sequence is modelled by an oracle (one boolean per executed
act position) saying which act raises.  Statements executed before the `try`
block (browser launch, context and page creation, console-handler
registration, script lines 6-11) are modelled as a separate setup phase that
is NOT protected by the handler, exactly as in the source.
-/

namespace VerifyAllFixes

/-- One atomic act performed by the script: a Playwright page operation,
an `expect` assertion, a screenshot, a print, or a lifecycle operation. -/
inductive Act where
  | launch
  | newContext
  | newPage
  | onConsole
  | goto (url : String)
  | printMsg (msg : String)
  | printErr
  | expectNotHaveClass (sel cls : String)
  | expectHaveClass (sel cls : String)
  | expectHaveClassRe (sel pat : String)
  | expectVisible (sel : String)
  | expectCount (sel : String) (n : Nat)
  | screenshot (path : String)
  | click (sel : String)
  | waitForTimeout (ms : Nat)
  | sleep (ms : Nat)
  | reload
  | fill (sel v : String)
  | focus (sel : String)
  | press (key : String)
  | closeBrowser
deriving DecidableEq, Repr

/-- `BASE_URL` with the fixed `PORT = 3000` (script lines 14-15). -/
def baseURL : String := "http://127.0.0.1:3000"

/-- Selector of the theme toggle button (script line 24). -/
def themeBtn : String := "#theme-toggle-btn"

/-- Selector of the accordion button (script line 65). -/
def accBtn : String := "[data-details-for=\x27salario-liquido-proventos-details\x27]"

/-- Selector of the sidebar tab for the salario liquido calculator (line 61). -/
def sidebarTab : String := ".sidebar-link[data-calculator=\x27salarioLiquido\x27]"

/-- Selector of the chart svg inside its container (script lines 117-118). -/
def chartSvg : String := "#salario-liquido-chart-container svg.chart-svg"

/-- Selector of the chart segments inside the container (script line 119). -/
def chartSeg : String := "#salario-liquido-chart-container .chart-segment"

/-- Path of the diagnostic screenshot taken in the except handler (line 129). -/
def errPath : String := "jules-scratch/verification/error.png"

/-- The five rapid accordion clicks with `time.sleep(0.05)` between them
(script lines 86-88, a loop of range(5)). -/
def stressClicks : List Act :=
  List.flatten (List.replicate 5 [Act.click accBtn, Act.sleep 50])

/-- The body of the `try` block, script lines 19-125, in textual order.
Pure expressions (locator construction) are not acts; every executed
statement is one act. -/
def steps : List Act :=
  [Act.goto (baseURL ++ "/?notest=true"),
   Act.printMsg "--- Verification Script Started ---",
   Act.printMsg "\n[1.1] Testing Dark/Light Mode Toggle...",
   Act.expectNotHaveClass "html" "dark",
   Act.expectVisible (themeBtn ++ " .sun-icon"),
   Act.screenshot "jules-scratch/verification/01_light_mode_initial.png",
   Act.printMsg "  - Initial light mode verified.",
   Act.click themeBtn,
   Act.waitForTimeout 500,
   Act.expectHaveClass "html" "dark",
   Act.expectVisible (themeBtn ++ " .moon-icon"),
   Act.screenshot "jules-scratch/verification/02_dark_mode_toggled.png",
   Act.printMsg "  - Toggled to dark mode verified.",
   Act.printMsg "[1.2] Testing Theme Persistence...",
   Act.reload,
   Act.waitForTimeout 500,
   Act.expectHaveClass "html" "dark",
   Act.expectVisible (themeBtn ++ " .moon-icon"),
   Act.screenshot "jules-scratch/verification/03_dark_mode_reloaded.png",
   Act.printMsg "  - Dark mode persists after reload.",
   Act.click themeBtn,
   Act.waitForTimeout 500,
   Act.reload,
   Act.waitForTimeout 500,
   Act.expectNotHaveClass "html" "dark",
   Act.printMsg "  - Light mode persists after reload.",
   Act.printMsg "\n[2.1] Testing Form Accordion Animation...",
   Act.click sidebarTab,
   Act.waitForTimeout 1000,
   Act.expectNotHaveClass accBtn "active",
   Act.click accBtn,
   Act.waitForTimeout 500,
   Act.expectHaveClassRe accBtn "active",
   Act.screenshot "jules-scratch/verification/04_accordion_open.png",
   Act.printMsg "  - Form accordion opens correctly.",
   Act.click accBtn,
   Act.waitForTimeout 500,
   Act.expectNotHaveClass accBtn "active",
   Act.printMsg "  - Form accordion closes correctly.",
   Act.printMsg "[2.2] Stress-testing accordion..."]
  ++ stressClicks ++
  [Act.waitForTimeout 500,
   Act.expectHaveClassRe accBtn "active",
   Act.printMsg "  - Accordion stable after rapid interaction.",
   Act.click accBtn,
   Act.waitForTimeout 500,
   Act.printMsg "[2.3] Testing accordion keyboard navigation...",
   Act.focus accBtn,
   Act.press "Enter",
   Act.waitForTimeout 500,
   Act.expectHaveClassRe accBtn "active",
   Act.screenshot "jules-scratch/verification/05_accordion_kbd_open.png",
   Act.printMsg "  - Accordion opens with \x27Enter\x27 key.",
   Act.press "Enter",
   Act.waitForTimeout 500,
   Act.expectNotHaveClass accBtn "active",
   Act.printMsg "  - Accordion closes with \x27Enter\x27 key.",
   Act.printMsg "\n[3.1] Verifying SVG Chart Restoration...",
   Act.fill "#salario-bruto-salario-liquido" "5000",
   Act.fill "#desconto-saude-salario-liquido" "100",
   Act.waitForTimeout 500,
   Act.expectVisible chartSvg,
   Act.expectCount chartSeg 3,
   Act.screenshot "jules-scratch/verification/06_svg_chart_restored.png",
   Act.printMsg "  - SVG chart is visible and rendered.",
   Act.printMsg "[3.2] Verifying Duplicate ID Fix... SKIPPED",
   Act.printMsg "\n--- Verification Script Finished Successfully ---"]

/-- The setup phase, script lines 6-11, executed before the `try` block:
`browser = playwright.chromium.launch(...)`, `context = browser.new_context()`,
`page = context.new_page()`, `page.on("console", ...)`. -/
def setupActs : List Act :=
  [Act.launch, Act.newContext, Act.newPage, Act.onConsole]

/-- The body of the `except Exception` handler, script lines 128-129:
print the error message, take one diagnostic screenshot. -/
def handlerActs : List Act :=
  [Act.printErr, Act.screenshot errPath]

/-- Final outcome of one call of `run`: the body completed (`pass`),
an act of the body raised and was caught by the handler (`caught i`, where
`i` is the global position of the raising act), or an act of the setup
phase raised before the `try` block and the exception escaped the function
(`setupEscape i`). -/
inductive Outcome where
  | pass
  | caught (i : Nat)
  | setupEscape (i : Nat)
deriving DecidableEq, Repr

/-- Execute a list of acts starting at global position `k` under a failure
oracle `o` (`o k = true` means the act executed at position `k` raises).
Returns the acts that completed and the position of the first raising act,
if any. -/
def execActs (o : Nat → Bool) : List Act → Nat → List Act × Option Nat
  | [], _ => ([], none)
  | a :: rest, k =>
      if o k then ([], some k)
      else (a :: (execActs o rest (k + 1)).1, (execActs o rest (k + 1)).2)

/-- Result of one call of `run`: the sequence of acts that completed, in
execution order, and the outcome. -/
structure RunResult where
  trace : List Act
  outcome : Outcome
deriving DecidableEq, Repr

/-- The `run` function, script lines 5-132.  Setup acts execute first,
unprotected: if one raises, the function raises (no handler, no `finally`,
so no `browser.close()`).  Otherwise the `try` body executes; on the first
raising act control moves to the `except` handler (print + error
screenshot) and then the `finally` block (`browser.close()`); on full
completion only the `finally` block runs.  The handler and `finally` acts
are modelled as always completing. -/
def run (o : Nat → Bool) : RunResult :=
  match (execActs o setupActs 0).2 with
  | some i => ⟨(execActs o setupActs 0).1, Outcome.setupEscape i⟩
  | none =>
      match (execActs o steps setupActs.length).2 with
      | none =>
          ⟨(execActs o setupActs 0).1 ++ (execActs o steps setupActs.length).1
            ++ [Act.closeBrowser], Outcome.pass⟩
      | some i =>
          ⟨(execActs o setupActs 0).1 ++ (execActs o steps setupActs.length).1
            ++ handlerActs ++ [Act.closeBrowser], Outcome.caught i⟩

/-- The acts of the `try` body that complete under oracle `o`. -/
def bodyTrace (o : Nat → Bool) : List Act :=
  (execActs o steps setupActs.length).1

/-- Exit code of the process (script lines 134-135): the module-level
`with sync_playwright() as playwright: run(playwright)` propagates any
exception that escapes `run`, making Python exit non-zero; a normal return
of `run` reaches the end of the module and the process exits 0. -/
def exitCode (o : Nat → Bool) : Nat :=
  match (run o).outcome with
  | Outcome.setupEscape _ => 1
  | _ => 0

/-- Whether an act is part of the theme interaction: navigation and reload,
clicks of the theme toggle button, and class assertions on the root `html`
element. -/
def isThemeAct : Act → Bool
  | Act.goto _ => true
  | Act.reload => true
  | Act.click s => s == themeBtn
  | Act.expectHaveClass s _ => s == "html"
  | Act.expectNotHaveClass s _ => s == "html"
  | _ => false

/-- The theme-relevant acts of the `try` body, in declared order. -/
def themeActs : List Act := steps.filter isThemeAct

/-- Whether an act is part of the accordion interaction: clicks of, focus
on and class assertions about the accordion button, `Enter` key presses,
and the 50ms pauses of the rapid-click loop. -/
def isAccAct : Act → Bool
  | Act.click s => s == accBtn
  | Act.focus s => s == accBtn
  | Act.press k => k == "Enter"
  | Act.expectHaveClassRe s p => s == accBtn && p == "active"
  | Act.expectNotHaveClass s c => s == accBtn && c == "active"
  | Act.sleep _ => true
  | _ => false

/-- The accordion-relevant acts of the `try` body, in declared order. -/
def accActs : List Act := steps.filter isAccAct

/-- The accordion act sequence described by the spec for scenario 2.  This
definition follows the spec's words (not the source), for comparison with
the source-derived `accActs`: the closed start is asserted, the single
opening click and the single closing click are each followed by an
assertion, the burst of five rapid clicks is followed by an assertion, and
the final closing click is followed by an assertion that the active class
was removed. -/
def specAccordionSequence : List Act :=
  [Act.expectNotHaveClass accBtn "active",
   Act.click accBtn,
   Act.expectHaveClassRe accBtn "active",
   Act.click accBtn,
   Act.expectNotHaveClass accBtn "active"]
  ++ stressClicks ++
  [Act.expectHaveClassRe accBtn "active",
   Act.click accBtn,
   Act.expectNotHaveClass accBtn "active"]

/-- Whether an act is part of the chart scenario: filling an input field,
the visibility assertion on the chart svg, and element-count assertions. -/
def isChartAct : Act → Bool
  | Act.fill _ _ => true
  | Act.expectVisible s => s == chartSvg
  | Act.expectCount _ _ => true
  | _ => false

/-- The chart-relevant acts of the `try` body, in declared order. -/
def chartActs : List Act := steps.filter isChartAct

/-- Whether an act activates the accordion control: a pointer click on its
button or an `Enter` key press. -/
def isActivation : Act → Bool
  | Act.click s => s == accBtn
  | Act.press k => k == "Enter"
  | _ => false

/-- For each activation act in the list, the act immediately following it
(`none` when the activation is last).  Used to compare the asserted
post-condition of click activations with that of keyboard activations. -/
def nextAfterActivations : List Act → List (Option Act)
  | [] => []
  | [a] => if isActivation a then [none] else []
  | a :: b :: rest =>
      (if isActivation a then [some b] else []) ++ nextAfterActivations (b :: rest)

/-- Semantics of the Playwright `to_have_count(expected)` assertion used at
script line 119: it holds exactly when the number of matching elements
equals the expected count (equality, not a lower bound). -/
def toHaveCountHolds (expected actual : Nat) : Bool := actual == expected

/-- Modelled from the spec: the page-side toggle-state transition of the
web application under test.  The application's JavaScript is not part of
this repository snapshot (only the verification script is), and the spec
states that after N activations a toggle control's state equals the initial
state XOR (N mod 2 == 1). -/
def toggleState (init : Bool) (n : Nat) : Bool := xor init (n % 2 == 1)

/-- If no act of the list raises, every act completes. -/
theorem execActs_eq_of_none (o : Nat → Bool) :
    ∀ (l : List Act) (k : Nat), (execActs o l k).2 = none → (execActs o l k).1 = l := by
  intro l
  induction l with
  | nil => intro k _; rfl
  | cons a rest ih =>
      intro k h
      by_cases hk : o k = true
      · simp only [execActs, if_pos hk] at h
        exact absurd h (by simp)
      · simp only [execActs, if_neg hk] at h ⊢
        exact congrArg (a :: ·) (ih (k + 1) h)

/-- If the first raising act is at global position `i`, exactly the acts
before it complete: the completed acts are the prefix of length `i - k`,
with `k ≤ i` and `i - k` a valid index of the list. -/
theorem execActs_eq_of_some (o : Nat → Bool) :
    ∀ (l : List Act) (k i : Nat), (execActs o l k).2 = some i →
      (execActs o l k).1 = l.take (i - k) ∧ k ≤ i ∧ i - k < l.length := by
  intro l
  induction l with
  | nil => intro k i h; simp [execActs] at h
  | cons a rest ih =>
      intro k i h
      by_cases hk : o k = true
      · simp only [execActs, if_pos hk] at h ⊢
        obtain rfl : k = i := Option.some.inj h
        simp
      · simp only [execActs, if_neg hk] at h ⊢
        obtain ⟨h1, h2, h3⟩ := ih (k + 1) i h
        refine ⟨?_, by omega, ?_⟩
        · have : i - k = (i - (k + 1)) + 1 := by omega
          rw [this, List.take_succ_cons, h1]
        · simp only [List.length_cons]; omega

/-- The completed acts are always a prefix of the declared list. -/
theorem execActs_take (o : Nat → Bool) (l : List Act) (k : Nat) :
    ∃ n, (execActs o l k).1 = l.take n := by
  cases h : (execActs o l k).2 with
  | none =>
      exact ⟨l.length, by rw [execActs_eq_of_none o l k h, List.take_length]⟩
  | some i =>
      exact ⟨i - k, (execActs_eq_of_some o l k i h).1⟩

/-- Unfolding of `run` when a setup act raises: the exception escapes. -/
theorem run_of_setup_fail (o : Nat → Bool) (i : Nat)
    (hs : (execActs o setupActs 0).2 = some i) :
    run o = ⟨(execActs o setupActs 0).1, Outcome.setupEscape i⟩ := by
  unfold run
  rw [hs]

/-- Unfolding of `run` when setup completes and a body act raises: the
handler and the finally block execute. -/
theorem run_of_caught (o : Nat → Bool) (i : Nat)
    (hs : (execActs o setupActs 0).2 = none)
    (hb : (execActs o steps setupActs.length).2 = some i) :
    run o = ⟨setupActs ++ (execActs o steps setupActs.length).1
              ++ handlerActs ++ [Act.closeBrowser], Outcome.caught i⟩ := by
  unfold run
  rw [hs]
  rw [hb]
  rw [execActs_eq_of_none o setupActs 0 hs]

/-- Unfolding of `run` when every act completes. -/
theorem run_of_pass (o : Nat → Bool)
    (hs : (execActs o setupActs 0).2 = none)
    (hb : (execActs o steps setupActs.length).2 = none) :
    run o = ⟨setupActs ++ steps ++ [Act.closeBrowser], Outcome.pass⟩ := by
  unfold run
  rw [hs]
  rw [hb]
  rw [execActs_eq_of_none o setupActs 0 hs,
      execActs_eq_of_none o steps setupActs.length hb]

/-- No screenshot of the body uses the diagnostic error path. -/
theorem steps_count_err : steps.count (Act.screenshot errPath) = 0 := by decide

/-- Hence no prefix of the body contains an error-path screenshot. -/
theorem take_count_err (n : Nat) :
    (steps.take n).count (Act.screenshot errPath) = 0 := by
  have h := (List.take_sublist n steps).count_le (Act.screenshot errPath)
  rw [steps_count_err] at h
  omega

/-- C1: for every run in which setup completes and some body act raises
(the first at global position i), the run captures exactly one diagnostic
error screenshot, executes none of the remaining steps (the completed body
acts are a strict prefix of the declared steps), and terminates with a
failing outcome instead of continuing past the failure. -/
theorem c1_fail_fast_one_error_artifact (o : Nat → Bool) (i : Nat)
    (hs : (execActs o setupActs 0).2 = none)
    (hb : (execActs o steps setupActs.length).2 = some i) :
    (run o).trace.count (Act.screenshot errPath) = 1 ∧
    (∃ n, n < steps.length ∧
      (run o).trace = setupActs ++ steps.take n ++ handlerActs ++ [Act.closeBrowser]) ∧
    (run o).outcome = Outcome.caught i := by
  obtain ⟨h1, h2, h3⟩ := execActs_eq_of_some o steps setupActs.length i hb
  rw [run_of_caught o i hs hb]
  refine ⟨?_, ⟨i - setupActs.length, h3, by rw [h1]⟩, rfl⟩
  show (setupActs ++ (execActs o steps setupActs.length).1
          ++ handlerActs ++ [Act.closeBrowser]).count (Act.screenshot errPath) = 1
  rw [h1]
  simp only [List.count_append]
  rw [take_count_err]
  decide

/-- Witness for C1 at the oracle that makes the first body act raise. -/
theorem c1_witness :
    (run (fun k => decide (k = 4))).trace.count (Act.screenshot errPath) = 1 ∧
    (∃ n, n < steps.length ∧
      (run (fun k => decide (k = 4))).trace
        = setupActs ++ steps.take n ++ handlerActs ++ [Act.closeBrowser]) ∧
    (run (fun k => decide (k = 4))).outcome = Outcome.caught 4 :=
  c1_fail_fast_one_error_artifact (fun k => decide (k = 4)) 4 (by decide) (by decide)

/-- C2 counterexample: the claim that the exit code is 0 exactly when every
step passes is false: when the first body act raises, the exception is
caught and the process still exits 0 although the outcome is not a pass. -/
theorem c2_counterexample :
    ¬ (∀ o : Nat → Bool, exitCode o = 0 ↔ (run o).outcome = Outcome.pass) := by
  intro h
  have hp := (h (fun k => decide (k = 4))).mp (by decide)
  revert hp
  decide

/-- C2 amended: the process exits 0 whenever setup completes, regardless of
step failures (caught step failures also exit 0); a non-zero exit occurs
exactly when a setup act raises and the exception escapes. -/
theorem c2_amended_exit_code (o : Nat → Bool) :
    exitCode o = 0 ↔ ∀ i, (run o).outcome ≠ Outcome.setupEscape i := by
  unfold exitCode
  cases h : (run o).outcome with
  | pass => simp
  | caught i => simp
  | setupEscape i =>
      constructor
      · intro h0; exact absurd h0 (by simp)
      · intro hall; exact absurd rfl (hall i)

/-- Witness for C2 amended at the all-pass oracle. -/
theorem c2_witness :
    (run (fun _ => false)).outcome ≠ Outcome.setupEscape 0 :=
  ((c2_amended_exit_code (fun _ => false)).mp (by decide)) 0

/-- C3 counterexample: the claim that no exception raised anywhere in the
run escapes uncaught is false: when the browser launch (the first setup
act, executed before the try block) raises, the exception escapes run. -/
theorem c3_counterexample :
    ¬ (∀ (o : Nat → Bool) (i : Nat), (run o).outcome ≠ Outcome.setupEscape i) := by
  intro h
  exact h (fun k => decide (k = 0)) 0 (by decide)

/-- C3 amended: every failure raised during step execution (inside the try
block) is caught at the top level and converted into a reported failing
outcome, with the error message printed and a diagnostic screenshot
captured; failures raised during setup, before the try block, escape. -/
theorem c3_amended_step_failures_caught (o : Nat → Bool) (i : Nat)
    (hs : (execActs o setupActs 0).2 = none)
    (hb : (execActs o steps setupActs.length).2 = some i) :
    (run o).outcome = Outcome.caught i ∧
    Act.printErr ∈ (run o).trace ∧
    Act.screenshot errPath ∈ (run o).trace := by
  rw [run_of_caught o i hs hb]
  refine ⟨rfl, ?_, ?_⟩ <;> simp [handlerActs]

/-- Witness for C3 amended at an oracle failing a later body act. -/
theorem c3_witness :
    (run (fun k => decide (k = 10))).outcome = Outcome.caught 10 ∧
    Act.printErr ∈ (run (fun k => decide (k = 10))).trace ∧
    Act.screenshot errPath ∈ (run (fun k => decide (k = 10))).trace :=
  c3_amended_step_failures_caught (fun k => decide (k = 10)) 10 (by decide) (by decide)

/-- C4 counterexample: the claim that the browser acquired at scenario
start is closed on every exit path is false: when context creation (the
second setup act) raises, the launch has completed but the finally block is
never entered, so no close happens. -/
theorem c4_counterexample :
    ¬ (∀ o : Nat → Bool,
        Act.launch ∈ (run o).trace → Act.closeBrowser ∈ (run o).trace) := by
  intro h
  have hc := h (fun k => decide (k = 1)) (by decide)
  revert hc
  decide

/-- C4 amended: on every exit path from the try statement — full pass or a
caught step failure — the finally block runs and the browser is closed;
only exits caused by setup failures (before the try block) skip the
close. -/
theorem c4_amended_close_on_try_exit (o : Nat → Bool)
    (hs : (execActs o setupActs 0).2 = none) :
    Act.closeBrowser ∈ (run o).trace := by
  cases hb : (execActs o steps setupActs.length).2 with
  | none => rw [run_of_pass o hs hb]; simp
  | some i => rw [run_of_caught o i hs hb]; simp

/-- Witness for C4 amended at the all-pass oracle. -/
theorem c4_witness :
    Act.closeBrowser ∈ (run (fun _ => false)).trace :=
  c4_amended_close_on_try_exit (fun _ => false) (by decide)

/-- C5: the theme interaction of the script is, in order: navigate to
/?notest=true, assert the root html class lacks dark, click the theme
toggle once, assert the root class has dark, reload, and assert the root
class still has dark. -/
theorem c5_theme_sequence :
    themeActs.take 6 =
      [Act.goto (baseURL ++ "/?notest=true"),
       Act.expectNotHaveClass "html" "dark",
       Act.click themeBtn,
       Act.expectHaveClass "html" "dark",
       Act.reload,
       Act.expectHaveClass "html" "dark"] := by decide

/-- C6 counterexample: the claim that each post-state of the accordion
sequence, including the state after the final closing click, is asserted by
the script is false: the accordion acts of the script do not begin with the
spec's claimed sequence, because no assertion follows the final closing
click. -/
theorem c6_counterexample :
    accActs.take specAccordionSequence.length ≠ specAccordionSequence := by decide

/-- C6 amended: the script asserts the closed start, the post-state of the
opening click, of the closing click and of the five rapid clicks, exactly
as claimed, but the final closing click is not followed by an assertion:
the next accordion act after it is the keyboard focus. -/
theorem c6_amended_accordion_assertions :
    accActs.take 17 = specAccordionSequence.take 17 ∧
    accActs.get? 17 = some (Act.focus accBtn) := by decide

/-- C7: keyboard activation is asserted against the same post-conditions
as click activation: in the click open/close phase and in the keyboard
open/close phase, the act following each activation is the same pair of
assertions — active gained, then active lost. -/
theorem c7_keyboard_click_equivalence :
    nextAfterActivations (accActs.take 5) = nextAfterActivations (accActs.drop 17) ∧
    nextAfterActivations (accActs.take 5) =
      [some (Act.expectHaveClassRe accBtn "active"),
       some (Act.expectNotHaveClass accBtn "active")] := by decide

/-- C8: after filling the two numeric inputs, the chart post-condition is
the visibility of the svg and an element count assertion of exactly 3;
the count assertion holds at 3 only — it fails at 4 (and at 2), so it is
an exact-cardinality check and not a lower bound. -/
theorem c8_chart_exact_count :
    chartActs =
      [Act.fill "#salario-bruto-salario-liquido" "5000",
       Act.fill "#desconto-saude-salario-liquido" "100",
       Act.expectVisible chartSvg,
       Act.expectCount chartSeg 3] ∧
    toHaveCountHolds 3 3 = true ∧
    toHaveCountHolds 3 4 = false ∧
    toHaveCountHolds 3 2 = false := by decide

/-- C9: for every oracle, the body acts execute strictly in declaration
order: the completed body acts are a prefix of the declared step list, a
full pass executes exactly the declared list, and the run trace extends the
setup acts with the body acts in that order (execution is a single
sequential trace, so a step begins only after the previous completed). -/
theorem c9_declaration_order (o : Nat → Bool) :
    (∃ n, bodyTrace o = steps.take n) ∧
    ((execActs o steps setupActs.length).2 = none → bodyTrace o = steps) ∧
    ((execActs o setupActs 0).2 = none →
      ∃ t, (run o).trace = setupActs ++ bodyTrace o ++ t) := by
  refine ⟨execActs_take o steps setupActs.length, ?_, ?_⟩
  · intro h
    exact execActs_eq_of_none o steps setupActs.length h
  · intro hs
    cases hb : (execActs o steps setupActs.length).2 with
    | none =>
        refine ⟨[Act.closeBrowser], ?_⟩
        rw [run_of_pass o hs hb]
        unfold bodyTrace
        rw [execActs_eq_of_none o steps setupActs.length hb]
    | some i =>
        refine ⟨handlerActs ++ [Act.closeBrowser], ?_⟩
        rw [run_of_caught o i hs hb]
        unfold bodyTrace
        simp

/-- Witness for C9 at the all-pass oracle. -/
theorem c9_witness :
    bodyTrace (fun _ => false) = steps ∧
    (∃ t, (run (fun _ => false)).trace
            = setupActs ++ bodyTrace (fun _ => false) ++ t) :=
  ⟨(c9_declaration_order (fun _ => false)).2.1 (by decide),
   (c9_declaration_order (fun _ => false)).2.2 (by decide)⟩

/-- C10: on a fully successful run the scenario restores the initial
observable state: the theme toggle is clicked exactly twice and the final
root-class assertion is that dark is absent; the accordion receives eight
clicks and two Enter presses (ten activations, an even number), the spec's
toggle law therefore returns it to the closed initial state, and the final
accordion assertion is that the active class is absent. -/
theorem c10_baseline_restored :
    steps.count (Act.click accBtn) = 8 ∧
    steps.count (Act.press "Enter") = 2 ∧
    steps.count (Act.click themeBtn) = 2 ∧
    toggleState false (8 + 2) = false ∧
    toggleState false 2 = false ∧
    themeActs.getLast? = some (Act.expectNotHaveClass "html" "dark") ∧
    accActs.getLast? = some (Act.expectNotHaveClass accBtn "active") := by decide

end VerifyAllFixes
